import Mathlib

/-
Shallow embedding of the session-lifecycle core of `src/fun.py`
(Epic device-code auth webhook script).

External effects are modelled by oracle parameters:
 * provider calls that can raise become `CallResult` values
   (`exn` = a raised exception: transport failure or JSON-parse failure);
 * the per-iteration device-token poll becomes a stream `Nat → PollResp`;
 * the per-tick exchange-code refresh becomes a list of `CallResult`s,
   one per loop iteration of `auto_refresh_session`; exhausting the list
   models cooperative cancellation at the next sleep checkpoint;
 * `str(uuid.uuid4())[:8]` becomes an explicit `sid` parameter;
 * time is a `Nat` clock that advances by the sleep amounts (network
   calls take zero model time).

The shared registry `active_sessions` (a Python dict guarded by
`session_lock`) is an association list with unique keys; since a dict
cannot hold duplicate keys, `dictPop`/`updateEntry` may act on every
entry with the given key without loss of faithfulness.
-/

set_option linter.unusedVariables false

namespace EpicAuth

/-- Result of an external call that can raise an exception:
`exn` models a raised exception (transport failure or JSON-parse failure),
`ok` a value returned normally. -/
inductive CallResult (α : Type) where
  | exn : CallResult α
  | ok (a : α) : CallResult α
  deriving DecidableEq

/-- The JSON body returned by the account-info endpoint (line 174).
The source never validates this body; `.get` is used with defaults, so
every field is optional.  An Epic error body simply has all fields absent. -/
structure AccountInfo where
  displayName : Option String
  email : Option String
  accountId : Option String
  deriving DecidableEq

/-- One entry of `active_sessions` (dict literal at line 177). -/
structure Session where
  access_token : String
  exchange_code : String
  account_info : AccountInfo
  user_ip : String
  created_at : Nat
  last_refresh : Nat
  refresh_count : Nat
  deriving DecidableEq

/-- The `active_sessions` dict: `session_id → Session`. -/
abbrev Registry := List (String × Session)

/-- Dict lookup (`active_sessions[session_id]` / `session_id in active_sessions`). -/
def lookup : Registry → String → Option Session
  | [], _ => none
  | (k, v) :: rest, key => if k = key then some v else lookup rest key

/-- Overwrite the entry with the given key, keeping its position. -/
def overwrite : Registry → String → Session → Registry
  | [], _, _ => []
  | (k, w) :: rest, key, v =>
    if k = key then (k, v) :: overwrite rest key v else (k, w) :: overwrite rest key v

/-- Dict assignment `active_sessions[session_id] = session` (line 177):
overwrites an existing entry, otherwise appends a new one.  There is no
presence check in the source. -/
def dictSet (reg : Registry) (key : String) (v : Session) : Registry :=
  if (lookup reg key).isSome then overwrite reg key v else reg ++ [(key, v)]

/-- In-place field update `active_sessions[session_id].update(...)` (line 136). -/
def updateEntry : Registry → String → (Session → Session) → Registry
  | [], _, _ => []
  | (k, v) :: rest, key, f =>
    if k = key then (k, f v) :: updateEntry rest key f else (k, v) :: updateEntry rest key f

/-- `active_sessions.pop(session_id, None)` (line 149): idempotent removal,
a no-op when the key is absent. -/
def dictPop : Registry → String → Registry
  | [], _ => []
  | (k, v) :: rest, key =>
    if k = key then dictPop rest key else (k, v) :: dictPop rest key

/-- The fixed refresh cadence `REFRESH_INTERVAL = 120` (line 95). -/
def REFRESH_INTERVAL : Nat := 120

/-- `refresh_exchange_code` (lines 116-122).  The oracle carries the HTTP
status and whether the body has a `code` key.  The source returns the body's
`code` on status 200 and `None` otherwise; a missing key raises `KeyError`
and every exception is caught and turned into `None`. -/
def refresh_exchange_code (r : CallResult (Nat × Option String)) : Option String :=
  match r with
  | .exn => none
  | .ok (status, code) => if status = 200 then code else none

/-- Python truthiness of the refresh result: `if new_exchange_code:`
(line 132) is false for `None` and for the empty string. -/
def tickOk (r : CallResult (Nat × Option String)) : Bool :=
  match refresh_exchange_code r with
  | some c => c != ""
  | none => false

/-- Why the refresh loop is no longer iterating.  A run that ends while
still `running` models cooperative cancellation at the next sleep
checkpoint (`asyncio.CancelledError`, line 144). -/
inductive StopKind where
  | running
  | race
  | fail
  deriving DecidableEq

/-- One `send_refresh_update` emission (line 140): session id, the new
exchange code, the refresh counter, and the emission time (equal to the
`last_refresh` value just stored). -/
structure RefreshNote where
  sid : String
  code : String
  count : Nat
  time : Nat
  deriving DecidableEq

/-- State threaded through the `auto_refresh_session` loop: the registry,
the notifications emitted so far, the local `refresh_count` variable,
the clock, and whether the loop is still iterating. -/
structure RState where
  reg : Registry
  notes : List RefreshNote
  count : Nat
  now : Nat
  stop : StopKind
  deriving DecidableEq

/-- One iteration of the `while True` loop of `auto_refresh_session`
(lines 129-143): sleep `REFRESH_INTERVAL`, call `refresh_exchange_code`;
on a truthy code increment the local counter, then under the lock either
update the registry entry (if still present) and emit one refresh
notification, or stop (`race`, line 138); on a falsy code stop
(`fail`, line 142). -/
def refreshStep (sid : String) (st : RState) (t : CallResult (Nat × Option String)) : RState :=
  if st.stop ≠ .running then st
  else
    let now' := st.now + REFRESH_INTERVAL
    match refresh_exchange_code t with
    | some code =>
      if code = "" then { st with now := now', stop := .fail }
      else
        let count' := st.count + 1
        if (lookup st.reg sid).isSome then
          { reg := updateEntry st.reg sid
              (fun s => { s with exchange_code := code, last_refresh := now', refresh_count := count' }),
            notes := st.notes ++ [⟨sid, code, count', now'⟩],
            count := count', now := now', stop := .running }
        else
          { st with count := count', now := now', stop := .race }
    | none => { st with now := now', stop := .fail }

/-- The refresh loop run over a list of tick oracles. -/
def refreshRun (sid : String) (ticks : List (CallResult (Nat × Option String))) (st : RState) : RState :=
  ticks.foldl (refreshStep sid) st

/-- `auto_refresh_session` (lines 124-150): run the loop, then the
`finally` block pops the session id from the registry unconditionally. -/
def auto_refresh_session (sid : String) (ticks : List (CallResult (Nat × Option String)))
    (reg : Registry) (now : Nat) : RState :=
  let st := refreshRun sid ticks ⟨reg, [], 0, now, .running⟩
  { st with reg := dictPop st.reg sid }

/-- One device-token poll iteration's outcome (lines 168-171):
`exn` = the request or JSON parse raised; `resp status body` = an HTTP
response, where `body` is `some (access_token, account_id)` when the
parsed JSON contains an `access_token` key and `none` otherwise. -/
inductive PollResp where
  | exn : PollResp
  | resp (status : Nat) (body : Option (String × String)) : PollResp
  deriving DecidableEq

/-- Externally visible effects of a Poller run: the registry insertion
(line 177), the scheduling of `send_login_success` (line 178), and the
scheduling of the `auto_refresh_session` task (line 179). -/
inductive MEvent where
  | insertSession (sid : String) (s : Session)
  | loginNotif (sid : String) (code : String)
  | spawnRefresh (sid : String)
  deriving DecidableEq

/-- Terminal status of a Poller run.  `failed` is the `except` handler at
line 181 (an exception escaped the loop); `expired` carries the clock value
at which the `while time.time() < deadline` test failed. -/
inductive Outcome where
  | succeeded (sid : String)
  | expired (endTime : Nat)
  | failed : Outcome
  | outOfFuel : Outcome
  deriving DecidableEq

/-- Result of a Poller run: final registry, emitted effects, terminal status. -/
structure MonitorOut where
  reg : Registry
  events : List MEvent
  outcome : Outcome
  deriving DecidableEq

/-- Lines 172-180, the body executed once an access token is observed:
call the exchange endpoint (`r2`) and the account endpoint (`r3`), then
insert the session and schedule the success notification and the refresh
task.  Both oracles carry the HTTP status, which the source never
inspects — it reads only the JSON bodies (`await r2.json()`,
`await r3.json()`).  A body without a `code` key makes
`exchange_data['code']` (line 177) raise `KeyError` before the insertion,
so nothing is inserted; an account body of any shape is accepted. -/
def tokenStep (exch : CallResult (Nat × Option String)) (acct : CallResult (Nat × AccountInfo))
    (sid userIp atok : String) (reg : Registry) (now : Nat) : MonitorOut :=
  match exch with
  | .exn => ⟨reg, [], .failed⟩
  | .ok (_, none) => ⟨reg, [], .failed⟩
  | .ok (_, some code) =>
    match acct with
    | .exn => ⟨reg, [], .failed⟩
    | .ok (_, info) =>
      let s : Session := ⟨atok, code, info, userIp, now, now, 0⟩
      ⟨dictSet reg sid s,
       [.insertSession sid s, .loginNotif sid code, .spawnRefresh sid],
       .succeeded sid⟩

/-- The polling loop of `monitor_epic_auth` (lines 165-180), fueled by the
maximum number of iterations still allowed (the source loop is bounded by
the deadline whenever `interval > 0`; `outOfFuel` never occurs with enough
fuel).  Each iteration: test `now < deadline`, sleep `interval`, poll; a
non-200 status or a 200 body without `access_token` continues the loop;
a raised exception aborts the whole run (line 181). -/
def monitorAux (poll : Nat → PollResp) (exch : CallResult (Nat × Option String))
    (acct : CallResult (Nat × AccountInfo)) (sid userIp : String)
    (interval deadline : Nat) (reg : Registry) : Nat → Nat → Nat → MonitorOut
  | 0, _, now =>
    if now < deadline then ⟨reg, [], .outOfFuel⟩ else ⟨reg, [], .expired now⟩
  | fuel + 1, k, now =>
    if now < deadline then
      match poll k with
      | .exn => ⟨reg, [], .failed⟩
      | .resp status body =>
        if status ≠ 200 then
          monitorAux poll exch acct sid userIp interval deadline reg fuel (k + 1) (now + interval)
        else
          match body with
          | none =>
            monitorAux poll exch acct sid userIp interval deadline reg fuel (k + 1) (now + interval)
          | some (atok, _) => tokenStep exch acct sid userIp atok reg (now + interval)
    else ⟨reg, [], .expired now⟩

/-- `monitor_epic_auth` (lines 160-182): `deadline = time.time() + expires_in`
computed once at entry, then the polling loop from time `t0`. -/
def monitor_epic_auth (poll : Nat → PollResp) (exch : CallResult (Nat × Option String))
    (acct : CallResult (Nat × AccountInfo)) (sid userIp : String)
    (interval expires_in t0 : Nat) (reg : Registry) (fuel : Nat) : MonitorOut :=
  monitorAux poll exch acct sid userIp interval (t0 + expires_in) reg fuel 0 t0

/-- A poll iteration that lets the loop continue: an HTTP response that is
either non-200 or a 200 body without `access_token`. -/
def pollContinue (r : PollResp) : Bool :=
  match r with
  | .exn => false
  | .resp status body => status != 200 || body.isNone

/-- The `AuthorizationAttempt` built by `create_epic_auth_session`
(lines 105-114). -/
structure AuthAttempt where
  activation_url : String
  device_code : String
  interval : Nat
  expires_in : Nat
  deriving DecidableEq

/-- HTTP result of the dispatcher: `302` redirect, `404`, or `500`. -/
inductive HttpOut where
  | redirect (location : String)
  | notFound : HttpOut
  | serverError : HttpOut
  deriving DecidableEq

/-- Observable result of one `do_GET` call: the HTTP response, the value of
the `verification_uses` counter afterwards, and whether a Poller thread was
spawned (line 223). -/
structure DispatchResult where
  out : HttpOut
  uses : Nat
  pollerSpawned : Bool
  deriving DecidableEq

/-- Python `str.split(sep)` for a one-character separator, over the
character list: splits at every occurrence, keeping empty pieces;
`''.split('/') == ['']`, so the result is always non-empty. -/
def pySplit (sep : Char) : List Char → List String
  | [] => [""]
  | c :: rest =>
    if c = sep then "" :: pySplit sep rest
    else
      match pySplit sep rest with
      | [] => [String.mk [c]]
      | s :: ss => String.mk (c :: s.data) :: ss

/-- Python `str.startswith(pre)`: prefix test on the character lists. -/
def pyStartsWith (s pre : String) : Bool :=
  pre.data.isPrefixOf s.data

/-- `self.path.split('/')[-1]` (line 213): the last `/`-separated segment.
Python's `split` on a non-empty separator always returns a non-empty list,
so the default of `getLastD` is never used. -/
def lastSegment (path : String) : String :=
  (pySplit '/' path.data).getLastD ""

/-- `RequestHandler.do_GET` (lines 210-227).  `linkId` is the global
`permanent_link_id` (`none` or `some ""` are both Python-falsy), `uses` the
global `verification_uses`, `initiator` the outcome of the synchronous
`create_epic_auth_session` call.  The counter is incremented before the
initiator runs and is not rolled back on failure. -/
def do_GET (linkId : Option String) (path : String) (uses : Nat)
    (initiator : CallResult AuthAttempt) : DispatchResult :=
  if pyStartsWith path "/verify/" then
    match linkId with
    | none => ⟨.notFound, uses, false⟩
    | some lid =>
      if lid = "" then ⟨.notFound, uses, false⟩
      else if lastSegment path ≠ lid then ⟨.notFound, uses, false⟩
      else
        match initiator with
        | .exn => ⟨.serverError, uses + 1, false⟩
        | .ok attempt => ⟨.redirect attempt.activation_url, uses + 1, true⟩
  else ⟨.notFound, uses, false⟩

/-- The acceptance condition of `do_GET` (lines 212-213), as the source
tests it: the path starts with `/verify/`, `permanent_link_id` is truthy,
and the path's last segment equals it. -/
def acceptsRequest (linkId : Option String) (path : String) : Bool :=
  pyStartsWith path "/verify/" &&
    match linkId with
    | none => false
    | some lid => lid != "" && lastSegment path == lid

-- ---------------------------------------------------------------------
-- Registry lemmas
-- ---------------------------------------------------------------------

theorem lookup_dictPop (reg : Registry) (key : String) :
    lookup (dictPop reg key) key = none := by
  induction reg with
  | nil => rfl
  | cons p rest ih =>
    obtain ⟨k, v⟩ := p
    by_cases hk : k = key
    · simpa [dictPop, hk] using ih
    · simpa [dictPop, hk, lookup] using ih

theorem dictPop_absent (reg : Registry) (key : String) (h : lookup reg key = none) :
    dictPop reg key = reg := by
  induction reg with
  | nil => rfl
  | cons p rest ih =>
    obtain ⟨k, v⟩ := p
    by_cases hk : k = key
    · simp [lookup, hk] at h
    · simp only [lookup, if_neg hk] at h
      simp [dictPop, hk, ih h]

theorem lookup_updateEntry_self (reg : Registry) (key : String) (f : Session → Session) :
    lookup (updateEntry reg key f) key = (lookup reg key).map f := by
  induction reg with
  | nil => rfl
  | cons p rest ih =>
    obtain ⟨k, v⟩ := p
    by_cases hk : k = key
    · simp [updateEntry, lookup, hk]
    · simpa [updateEntry, lookup, hk] using ih

theorem lookup_overwrite_self (reg : Registry) (key : String) (v : Session)
    (h : (lookup reg key).isSome = true) : lookup (overwrite reg key v) key = some v := by
  induction reg with
  | nil => simp [lookup] at h
  | cons p rest ih =>
    obtain ⟨k, w⟩ := p
    by_cases hk : k = key
    · simp [overwrite, lookup, hk]
    · simp only [lookup, if_neg hk] at h
      simpa [overwrite, lookup, hk] using ih h

theorem lookup_dictSet_self (reg : Registry) (key : String) (v : Session) :
    lookup (dictSet reg key v) key = some v := by
  unfold dictSet
  by_cases h : (lookup reg key).isSome
  · rw [if_pos h]
    exact lookup_overwrite_self reg key v h
  · rw [if_neg h]
    induction reg with
    | nil => simp [lookup]
    | cons p rest ih =>
      obtain ⟨k, w⟩ := p
      by_cases hk : k = key
      · simp [lookup, hk] at h
      · simp only [lookup, if_neg hk] at h
        simpa [lookup, hk] using ih h

theorem dictSet_absent (reg : Registry) (key : String) (v : Session)
    (h : lookup reg key = none) : dictSet reg key v = reg ++ [(key, v)] := by
  unfold dictSet
  rw [h]
  rfl

-- ---------------------------------------------------------------------
-- Refresh-scheduler lemmas
-- ---------------------------------------------------------------------

theorem refreshRun_stopped (sid : String) (ticks : List (CallResult (Nat × Option String)))
    (st : RState) (h : st.stop ≠ .running) : refreshRun sid ticks st = st := by
  induction ticks with
  | nil => rfl
  | cons t rest ih =>
    unfold refreshRun at ih ⊢
    rw [List.foldl_cons]
    rw [show refreshStep sid st t = st from by unfold refreshStep; rw [if_pos h]]
    exact ih

/-- A successful tick's oracle yields a non-empty code. -/
theorem tickOk_spec (t : CallResult (Nat × Option String)) (h : tickOk t = true) :
    ∃ code, refresh_exchange_code t = some code ∧ code ≠ "" := by
  unfold tickOk at h
  cases hc : refresh_exchange_code t with
  | none => rw [hc] at h; simp at h
  | some c =>
    rw [hc] at h
    exact ⟨c, rfl, by simpa using h⟩

/-- Effect of one successful tick on a state whose session is present. -/
theorem refreshStep_ok (sid : String) (reg : Registry) (ns : List RefreshNote)
    (c n : Nat) (t : CallResult (Nat × Option String)) (code : String)
    (hc : refresh_exchange_code t = some code) (hne : code ≠ "")
    (hs : (lookup reg sid).isSome = true) :
    refreshStep sid ⟨reg, ns, c, n, .running⟩ t =
      ⟨updateEntry reg sid
         (fun s => { s with exchange_code := code, last_refresh := n + 120, refresh_count := c + 1 }),
       ns ++ [⟨sid, code, c + 1, n + 120⟩], c + 1, n + 120, .running⟩ := by
  unfold refreshStep
  simp [hc, hne, hs, REFRESH_INTERVAL]

/-- Running the refresh loop over ticks that all succeed, starting from a
state whose tracked session is present with `refresh_count = c` and
`last_refresh = n` (the loop's local counter and clock agree with the
stored fields): the loop stays live, the stored counter and timestamp
advance in lockstep, and one notification per tick is appended with
counter values `c+1, c+2, ...` and times spaced by 120. -/
theorem refreshRun_allOk (sid : String) :
    ∀ (ticks : List (CallResult (Nat × Option String))) (reg : Registry)
      (ns : List RefreshNote) (c n : Nat) (s0 : Session),
      (∀ t ∈ ticks, tickOk t = true) →
      lookup reg sid = some s0 → s0.refresh_count = c → s0.last_refresh = n →
      (refreshRun sid ticks ⟨reg, ns, c, n, .running⟩).stop = .running ∧
      (refreshRun sid ticks ⟨reg, ns, c, n, .running⟩).count = c + ticks.length ∧
      (refreshRun sid ticks ⟨reg, ns, c, n, .running⟩).now = n + 120 * ticks.length ∧
      Option.map Session.refresh_count
        (lookup (refreshRun sid ticks ⟨reg, ns, c, n, .running⟩).reg sid) = some (c + ticks.length) ∧
      Option.map Session.last_refresh
        (lookup (refreshRun sid ticks ⟨reg, ns, c, n, .running⟩).reg sid) = some (n + 120 * ticks.length) ∧
      (refreshRun sid ticks ⟨reg, ns, c, n, .running⟩).notes.length = ns.length + ticks.length ∧
      (refreshRun sid ticks ⟨reg, ns, c, n, .running⟩).notes.map RefreshNote.sid
        = ns.map RefreshNote.sid ++ List.replicate ticks.length sid ∧
      (refreshRun sid ticks ⟨reg, ns, c, n, .running⟩).notes.map RefreshNote.count
        = ns.map RefreshNote.count ++ List.range' (c + 1) ticks.length ∧
      (refreshRun sid ticks ⟨reg, ns, c, n, .running⟩).notes.map RefreshNote.time
        = ns.map RefreshNote.time ++ List.range' (n + 120) ticks.length 120 := by
  intro ticks
  induction ticks with
  | nil =>
    intro reg ns c n s0 hall hs hc hl
    refine ⟨rfl, by simp [refreshRun], by simp [refreshRun], ?_, ?_, by simp [refreshRun], ?_, ?_, ?_⟩ <;>
      simp [refreshRun, hs, hc, hl]
  | cons t rest ih =>
    intro reg ns c n s0 hall hs hc hl
    obtain ⟨code, hcode, hne⟩ := tickOk_spec t (hall t (by simp))
    have hrest : ∀ t' ∈ rest, tickOk t' = true := fun t' h => hall t' (by simp [h])
    have hstep := refreshStep_ok sid reg ns c n t code hcode hne (by rw [hs]; rfl)
    have hlook : lookup
        (updateEntry reg sid
          (fun s => { s with exchange_code := code, last_refresh := n + 120, refresh_count := c + 1 }))
        sid = some { s0 with exchange_code := code, last_refresh := n + 120, refresh_count := c + 1 } := by
      rw [lookup_updateEntry_self, hs]; rfl
    have := ih
      (updateEntry reg sid
        (fun s => { s with exchange_code := code, last_refresh := n + 120, refresh_count := c + 1 }))
      (ns ++ [⟨sid, code, c + 1, n + 120⟩]) (c + 1) (n + 120)
      { s0 with exchange_code := code, last_refresh := n + 120, refresh_count := c + 1 }
      hrest hlook rfl rfl
    obtain ⟨h1, h2, h3, h4, h5, h6, h7, h8, h9⟩ := this
    have hrun : refreshRun sid (t :: rest) ⟨reg, ns, c, n, .running⟩
        = refreshRun sid rest
            ⟨updateEntry reg sid
               (fun s => { s with exchange_code := code, last_refresh := n + 120, refresh_count := c + 1 }),
             ns ++ [⟨sid, code, c + 1, n + 120⟩], c + 1, n + 120, .running⟩ := by
      unfold refreshRun
      rw [List.foldl_cons, hstep]
    rw [hrun]
    refine ⟨h1, by rw [h2]; simp; omega, by rw [h3]; simp [Nat.mul_succ]; omega, ?_, ?_, ?_, ?_, ?_, ?_⟩
    · rw [h4]; simp; omega
    · rw [h5]; simp [Nat.mul_succ]; omega
    · rw [h6]; simp [List.length_append]; omega
    · rw [h7]; simp [List.replicate_succ]
    · rw [h8]
      simp [List.range'_succ, List.append_assoc]
    · rw [h9]
      simp [List.range'_succ, List.append_assoc]

-- ---------------------------------------------------------------------
-- Claim theorems about the Refresh Scheduler
-- ---------------------------------------------------------------------

/-- C2: for a live session (present in the registry with `refresh_count = 0`
and `last_refresh` equal to the loop's start time, as inserted by the
Poller), after `N` consecutive successful refresh ticks the loop is still
live, the stored `refresh_count` equals `N` (having gone `1, 2, ..., N`,
i.e. monotonically non-decreasing, +1 per successful tick), exactly `N`
refresh notifications have been emitted for that session id, carrying the
counter values `1..N` and timestamps spaced by the fixed 120-second
cadence, and the stored `last_refresh` equals the last tick's time. -/
theorem auto_refresh_n_success_ticks (sid : String)
    (ticks : List (CallResult (Nat × Option String))) (reg : Registry)
    (s0 : Session) (now0 : Nat)
    (hall : ∀ t ∈ ticks, tickOk t = true)
    (hs : lookup reg sid = some s0)
    (hc : s0.refresh_count = 0) (hl : s0.last_refresh = now0) :
    (refreshRun sid ticks ⟨reg, [], 0, now0, .running⟩).stop = .running ∧
    Option.map Session.refresh_count
      (lookup (refreshRun sid ticks ⟨reg, [], 0, now0, .running⟩).reg sid) = some ticks.length ∧
    Option.map Session.last_refresh
      (lookup (refreshRun sid ticks ⟨reg, [], 0, now0, .running⟩).reg sid)
        = some (now0 + 120 * ticks.length) ∧
    (refreshRun sid ticks ⟨reg, [], 0, now0, .running⟩).notes.length = ticks.length ∧
    (refreshRun sid ticks ⟨reg, [], 0, now0, .running⟩).notes.map RefreshNote.sid
      = List.replicate ticks.length sid ∧
    (refreshRun sid ticks ⟨reg, [], 0, now0, .running⟩).notes.map RefreshNote.count
      = List.range' 1 ticks.length ∧
    (refreshRun sid ticks ⟨reg, [], 0, now0, .running⟩).notes.map RefreshNote.time
      = List.range' (now0 + 120) ticks.length 120 := by
  obtain ⟨h1, h2, h3, h4, h5, h6, h7, h8, h9⟩ :=
    refreshRun_allOk sid ticks reg [] 0 now0 s0 hall hs hc hl
  exact ⟨h1, by simpa using h4, by simpa using h5, by simpa using h6,
    by simpa using h7, by simpa using h8, by simpa using h9⟩

/-- Witness for C2: two successful refresh ticks at 120s cadence give
`refresh_count` 2, two notifications with counters 1, 2 and times 170, 290. -/
theorem auto_refresh_n_success_ticks_witness :
    (tickOk (CallResult.ok ((200 : Nat), some "c1")) = true ∧
      tickOk (CallResult.ok ((200 : Nat), some "c2")) = true) ∧
    ((refreshRun "s1" [CallResult.ok ((200 : Nat), some "c1"), CallResult.ok ((200 : Nat), some "c2")]
        ⟨[("s1", ⟨"AT", "X0", ⟨none, none, none⟩, "ip", 50, 50, 0⟩)], [], 0, 50, .running⟩).stop
          = .running ∧
      Option.map Session.refresh_count
        (lookup (refreshRun "s1"
          [CallResult.ok ((200 : Nat), some "c1"), CallResult.ok ((200 : Nat), some "c2")]
          ⟨[("s1", ⟨"AT", "X0", ⟨none, none, none⟩, "ip", 50, 50, 0⟩)], [], 0, 50, .running⟩).reg "s1")
            = some 2 ∧
      Option.map Session.last_refresh
        (lookup (refreshRun "s1"
          [CallResult.ok ((200 : Nat), some "c1"), CallResult.ok ((200 : Nat), some "c2")]
          ⟨[("s1", ⟨"AT", "X0", ⟨none, none, none⟩, "ip", 50, 50, 0⟩)], [], 0, 50, .running⟩).reg "s1")
            = some 290 ∧
      (refreshRun "s1" [CallResult.ok ((200 : Nat), some "c1"), CallResult.ok ((200 : Nat), some "c2")]
        ⟨[("s1", ⟨"AT", "X0", ⟨none, none, none⟩, "ip", 50, 50, 0⟩)], [], 0, 50, .running⟩).notes.length
          = 2 ∧
      (refreshRun "s1" [CallResult.ok ((200 : Nat), some "c1"), CallResult.ok ((200 : Nat), some "c2")]
        ⟨[("s1", ⟨"AT", "X0", ⟨none, none, none⟩, "ip", 50, 50, 0⟩)], [], 0, 50, .running⟩).notes.map
          RefreshNote.sid = List.replicate 2 "s1" ∧
      (refreshRun "s1" [CallResult.ok ((200 : Nat), some "c1"), CallResult.ok ((200 : Nat), some "c2")]
        ⟨[("s1", ⟨"AT", "X0", ⟨none, none, none⟩, "ip", 50, 50, 0⟩)], [], 0, 50, .running⟩).notes.map
          RefreshNote.count = List.range' 1 2 ∧
      (refreshRun "s1" [CallResult.ok ((200 : Nat), some "c1"), CallResult.ok ((200 : Nat), some "c2")]
        ⟨[("s1", ⟨"AT", "X0", ⟨none, none, none⟩, "ip", 50, 50, 0⟩)], [], 0, 50, .running⟩).notes.map
          RefreshNote.time = List.range' 170 2 120) :=
  ⟨⟨by decide, by decide⟩,
   auto_refresh_n_success_ticks "s1"
     [CallResult.ok ((200 : Nat), some "c1"), CallResult.ok ((200 : Nat), some "c2")]
     [("s1", ⟨"AT", "X0", ⟨none, none, none⟩, "ip", 50, 50, 0⟩)]
     ⟨"AT", "X0", ⟨none, none, none⟩, "ip", 50, 50, 0⟩ 50
     (by decide) (by decide) rfl rfl⟩

/-- C3: starting from a live session, on the first refresh tick whose
exchange-code renewal fails the loop stops in the `fail` state (no retry:
the remaining ticks are never consumed), the session id is no longer in
the registry when the task exits, and the notifications emitted are
exactly the ones of the successful prefix — none afterwards. -/
theorem auto_refresh_first_failure_removes_session (sid : String)
    (pre post : List (CallResult (Nat × Option String)))
    (tf : CallResult (Nat × Option String))
    (reg : Registry) (s0 : Session) (now0 : Nat)
    (hpre : ∀ t ∈ pre, tickOk t = true) (hf : tickOk tf = false)
    (hs : lookup reg sid = some s0)
    (hc : s0.refresh_count = 0) (hl : s0.last_refresh = now0) :
    (auto_refresh_session sid (pre ++ tf :: post) reg now0).stop = .fail ∧
    (auto_refresh_session sid (pre ++ tf :: post) reg now0).notes.length = pre.length ∧
    lookup (auto_refresh_session sid (pre ++ tf :: post) reg now0).reg sid = none := by
  obtain ⟨h1, h2, h3, h4, h5, h6, h7, h8, h9⟩ :=
    refreshRun_allOk sid pre reg [] 0 now0 s0 hpre hs hc hl
  have hstep : refreshStep sid (refreshRun sid pre ⟨reg, [], 0, now0, .running⟩) tf
      = { refreshRun sid pre ⟨reg, [], 0, now0, .running⟩ with
          now := (refreshRun sid pre ⟨reg, [], 0, now0, .running⟩).now + 120, stop := .fail } := by
    unfold refreshStep
    rw [if_neg (by rw [h1]; simp)]
    unfold tickOk at hf
    cases hcode : refresh_exchange_code tf with
    | none => simp [hcode, REFRESH_INTERVAL]
    | some c =>
      rw [hcode] at hf
      have hcempty : c = "" := by simpa using hf
      subst hcempty
      simp [hcode, REFRESH_INTERVAL]
  have hsplit : refreshRun sid (pre ++ tf :: post) ⟨reg, [], 0, now0, .running⟩
      = { refreshRun sid pre ⟨reg, [], 0, now0, .running⟩ with
          now := (refreshRun sid pre ⟨reg, [], 0, now0, .running⟩).now + 120, stop := .fail } := by
    have hsp : refreshRun sid (pre ++ tf :: post) ⟨reg, [], 0, now0, .running⟩
        = refreshRun sid post
            (refreshStep sid (refreshRun sid pre ⟨reg, [], 0, now0, .running⟩) tf) := by
      show List.foldl (refreshStep sid) ⟨reg, [], 0, now0, .running⟩ (pre ++ tf :: post)
          = List.foldl (refreshStep sid)
              (refreshStep sid (List.foldl (refreshStep sid) ⟨reg, [], 0, now0, .running⟩ pre) tf)
              post
      rw [List.foldl_append, List.foldl_cons]
    rw [hsp, hstep]
    exact refreshRun_stopped sid post _ (by simp)
  simp only [auto_refresh_session]
  rw [hsplit]
  refine ⟨rfl, by simpa using h6, ?_⟩
  exact lookup_dictPop _ _

/-- Witness for C3: one successful tick, then a tick whose refresh call
returns HTTP 500 (so `refresh_exchange_code` yields `None`): the task
stops in the `fail` state, one notification total, session removed. -/
theorem auto_refresh_first_failure_removes_session_witness :
    (tickOk (CallResult.ok ((200 : Nat), some "c1")) = true ∧
      tickOk (CallResult.ok ((500 : Nat), some "zz")) = false) ∧
    ((auto_refresh_session "s1"
        ([CallResult.ok ((200 : Nat), some "c1")]
          ++ CallResult.ok ((500 : Nat), some "zz") :: [CallResult.ok ((200 : Nat), some "c2")])
        [("s1", ⟨"AT", "X0", ⟨none, none, none⟩, "ip", 0, 0, 0⟩)] 0).stop = .fail ∧
      (auto_refresh_session "s1"
        ([CallResult.ok ((200 : Nat), some "c1")]
          ++ CallResult.ok ((500 : Nat), some "zz") :: [CallResult.ok ((200 : Nat), some "c2")])
        [("s1", ⟨"AT", "X0", ⟨none, none, none⟩, "ip", 0, 0, 0⟩)] 0).notes.length = 1 ∧
      lookup (auto_refresh_session "s1"
        ([CallResult.ok ((200 : Nat), some "c1")]
          ++ CallResult.ok ((500 : Nat), some "zz") :: [CallResult.ok ((200 : Nat), some "c2")])
        [("s1", ⟨"AT", "X0", ⟨none, none, none⟩, "ip", 0, 0, 0⟩)] 0).reg "s1" = none) :=
  ⟨⟨by decide, by decide⟩,
   auto_refresh_first_failure_removes_session "s1"
     [CallResult.ok ((200 : Nat), some "c1")] [CallResult.ok ((200 : Nat), some "c2")]
     (CallResult.ok ((500 : Nat), some "zz"))
     [("s1", ⟨"AT", "X0", ⟨none, none, none⟩, "ip", 0, 0, 0⟩)]
     ⟨"AT", "X0", ⟨none, none, none⟩, "ip", 0, 0, 0⟩ 0
     (by decide) (by decide) (by decide) rfl rfl⟩

/-- C4: if a successful refresh tick finds the session id no longer in the
registry, the task stops in the `race` state (distinct from the failure
stop): it emits no notification for that tick, re-inserts nothing, and the
registry it leaves behind is exactly the one it found (the final
`pop` of an absent id is a no-op). -/
theorem auto_refresh_registry_race_stops_silently (sid : String)
    (t : CallResult (Nat × Option String)) (rest : List (CallResult (Nat × Option String)))
    (reg : Registry) (now0 : Nat)
    (habs : lookup reg sid = none) (ht : tickOk t = true) :
    auto_refresh_session sid (t :: rest) reg now0 = ⟨reg, [], 1, now0 + 120, .race⟩ := by
  obtain ⟨code, hcode, hne⟩ := tickOk_spec t ht
  have hstep : refreshStep sid ⟨reg, [], 0, now0, .running⟩ t
      = ⟨reg, [], 1, now0 + 120, .race⟩ := by
    unfold refreshStep
    rw [if_neg (by simp)]
    simp only [hcode]
    rw [if_neg hne]
    simp [habs, REFRESH_INTERVAL]
  unfold auto_refresh_session
  show { refreshRun sid (t :: rest) ⟨reg, [], 0, now0, .running⟩ with
         reg := dictPop (refreshRun sid (t :: rest) ⟨reg, [], 0, now0, .running⟩).reg sid } = _
  rw [show refreshRun sid (t :: rest) ⟨reg, [], 0, now0, .running⟩
        = refreshRun sid rest (refreshStep sid ⟨reg, [], 0, now0, .running⟩ t) from rfl]
  rw [hstep]
  rw [refreshRun_stopped sid rest _ (by simp)]
  simp [dictPop_absent reg sid habs]

/-- Witness for C4: a successful tick against a registry that no longer
holds the session: the task stops in the `race` state, the registry is
untouched. -/
theorem auto_refresh_registry_race_stops_silently_witness :
    (lookup ([] : Registry) "s1" = none ∧ tickOk (CallResult.ok ((200 : Nat), some "c9")) = true) ∧
    auto_refresh_session "s1" [CallResult.ok ((200 : Nat), some "c9")] ([] : Registry) 7
      = ⟨[], [], 1, 127, .race⟩ :=
  ⟨⟨rfl, by decide⟩,
   auto_refresh_registry_race_stops_silently "s1" (CallResult.ok ((200 : Nat), some "c9")) []
     [] 7 rfl (by decide)⟩

/-- C9: on every termination path of the refresh task — first failing tick,
registry race, or cooperative cancellation (modelled by the tick list being
exhausted) — the `finally` block has popped the session id, so after the
task has ended the registry never contains it. -/
theorem auto_refresh_always_removes_session_on_exit (sid : String)
    (ticks : List (CallResult (Nat × Option String))) (reg : Registry) (now0 : Nat) :
    lookup (auto_refresh_session sid ticks reg now0).reg sid = none := by
  unfold auto_refresh_session
  exact lookup_dictPop _ _

-- ---------------------------------------------------------------------
-- Poller lemmas
-- ---------------------------------------------------------------------

/-- Reaching the first token grant: if the first `d` poll iterations let
the loop continue, iteration `d` returns a 200 body carrying an access
token, and the check times up to iteration `d` are within the deadline,
then the run equals the token-step body executed at time
`now + d * interval + interval` (the sleep of iteration `d` included). -/
theorem monitorAux_reach (poll : Nat → PollResp) (exch : CallResult (Nat × Option String))
    (acct : CallResult (Nat × AccountInfo)) (sid userIp : String)
    (interval deadline : Nat) (reg : Registry) (atok aid : String) :
    ∀ (d k now fuel : Nat),
      (∀ j, j < d → pollContinue (poll (k + j)) = true) →
      poll (k + d) = .resp 200 (some (atok, aid)) →
      now + d * interval < deadline →
      d < fuel →
      monitorAux poll exch acct sid userIp interval deadline reg fuel k now
        = tokenStep exch acct sid userIp atok reg (now + d * interval + interval) := by
  intro d
  induction d with
  | zero =>
    intro k now fuel hcont htok htime hfuel
    obtain ⟨fuel, rfl⟩ : ∃ f, fuel = f + 1 := ⟨fuel - 1, by omega⟩
    rw [Nat.add_zero] at htok
    simp only [Nat.zero_mul, Nat.add_zero] at htime ⊢
    simp only [monitorAux]
    rw [if_pos htime, htok]
    simp
  | succ d ih =>
    intro k now fuel hcont htok htime hfuel
    obtain ⟨fuel, rfl⟩ : ∃ f, fuel = f + 1 := ⟨fuel - 1, by omega⟩
    have hnow : now < deadline := by
      have hle : now ≤ now + (d + 1) * interval := Nat.le_add_right _ _
      omega
    have harith : now + interval + d * interval + interval
        = now + (d + 1) * interval + interval := by
      rw [Nat.succ_mul]
      omega
    simp only [monitorAux]
    rw [if_pos hnow]
    have h0 := hcont 0 (by omega)
    rw [Nat.add_zero] at h0
    have hcont' : ∀ j, j < d → pollContinue (poll (k + 1 + j)) = true := by
      intro j hj
      have := hcont (j + 1) (by omega)
      rwa [show k + (j + 1) = k + 1 + j by omega] at this
    have htok' : poll (k + 1 + d) = .resp 200 (some (atok, aid)) := by
      rwa [show k + (d + 1) = k + 1 + d by omega] at htok
    have htime' : now + interval + d * interval < deadline := by
      rw [Nat.succ_mul] at htime
      omega
    cases hp : poll k with
    | exn => rw [hp] at h0; simp [pollContinue] at h0
    | resp status body =>
      rw [hp] at h0
      simp only []
      by_cases hst : status = 200
      · subst hst
        have hbody : body = none := by simpa [pollContinue] using h0
        subst hbody
        rw [if_neg (by simp)]
        rw [ih (k + 1) (now + interval) fuel hcont' htok' htime' (by omega)]
        rw [harith]
      · rw [if_pos hst]
        rw [ih (k + 1) (now + interval) fuel hcont' htok' htime' (by omega)]
        rw [harith]

/-- A run whose every poll iteration lets the loop continue exits through
the deadline test, with the registry untouched and no effects, at a time
earlier than `deadline + interval`. -/
theorem monitorAux_continue_expires (poll : Nat → PollResp)
    (exch : CallResult (Nat × Option String)) (acct : CallResult (Nat × AccountInfo))
    (sid userIp : String) (interval deadline : Nat) (reg : Registry)
    (hpoll : ∀ j, pollContinue (poll j) = true) :
    ∀ (fuel k now : Nat), deadline ≤ now + fuel * interval → now < deadline + interval →
      ∃ endT, monitorAux poll exch acct sid userIp interval deadline reg fuel k now
          = ⟨reg, [], .expired endT⟩ ∧ endT < deadline + interval := by
  intro fuel
  induction fuel with
  | zero =>
    intro k now h1 h2
    refine ⟨now, ?_, h2⟩
    simp only [Nat.zero_mul, Nat.add_zero] at h1
    simp only [monitorAux]
    rw [if_neg (by omega)]
  | succ fuel ih =>
    intro k now h1 h2
    by_cases hlt : now < deadline
    · have h0 := hpoll k
      simp only [monitorAux]
      rw [if_pos hlt]
      cases hp : poll k with
      | exn => rw [hp] at h0; simp [pollContinue] at h0
      | resp status body =>
        rw [hp] at h0
        simp only []
        by_cases hst : status = 200
        · subst hst
          have hbody : body = none := by simpa [pollContinue] using h0
          subst hbody
          rw [if_neg (by simp)]
          exact ih (k + 1) (now + interval) (by rw [Nat.succ_mul] at h1; omega) (by omega)
        · rw [if_pos hst]
          exact ih (k + 1) (now + interval) (by rw [Nat.succ_mul] at h1; omega) (by omega)
    · refine ⟨now, ?_, by omega⟩
      simp only [monitorAux]
      rw [if_neg hlt]

-- ---------------------------------------------------------------------
-- Claim theorems about the Poller
-- ---------------------------------------------------------------------

/-- C1: in a polling run where the provider lets iterations `0..k-1`
continue, grants an access token at iteration `k` before the expiry
deadline, and the exchange-code and account-info calls then succeed, the
Poller performs exactly one registry insertion — the fresh session with
`refresh_count = 0` and `last_refresh` equal to the current time — emits
exactly one success notification, spawns exactly one refresh task bound to
that session, and stops: the event list is exactly those three events. -/
theorem monitor_single_grant_exactly_one_insert_notify_spawn
    (poll : Nat → PollResp) (sid userIp atok aid code : String)
    (est ast : Nat) (info : AccountInfo)
    (interval expires_in t0 : Nat) (reg : Registry) (fuel k : Nat)
    (hcont : ∀ j, j < k → pollContinue (poll j) = true)
    (htok : poll k = .resp 200 (some (atok, aid)))
    (htime : k * interval < expires_in)
    (hfuel : k < fuel) :
    monitor_epic_auth poll (.ok (est, some code)) (.ok (ast, info)) sid userIp
        interval expires_in t0 reg fuel
      = ⟨dictSet reg sid ⟨atok, code, info, userIp, t0 + k * interval + interval,
           t0 + k * interval + interval, 0⟩,
         [.insertSession sid ⟨atok, code, info, userIp, t0 + k * interval + interval,
            t0 + k * interval + interval, 0⟩,
          .loginNotif sid code, .spawnRefresh sid],
         .succeeded sid⟩ := by
  unfold monitor_epic_auth
  rw [monitorAux_reach poll (.ok (est, some code)) (.ok (ast, info)) sid userIp interval
        (t0 + expires_in) reg atok aid k 0 t0 fuel
        (fun j hj => by simpa using hcont j hj)
        (by simpa using htok)
        (Nat.add_lt_add_left htime t0)
        hfuel]
  rfl

/-- Witness for C1: token granted at iteration 1 of a 5-second-cadence poll
with a 20-second window; exactly one insertion, one success notification,
one refresh spawn. -/
theorem monitor_single_grant_exactly_one_insert_notify_spawn_witness :
    (pollContinue (PollResp.resp 400 none) = true ∧
      (fun j => if j = 1 then PollResp.resp 200 (some ("AT", "AID"))
          else PollResp.resp 400 none) 1 = PollResp.resp 200 (some ("AT", "AID")) ∧
      1 * 5 < 20 ∧ 1 < 3) ∧
    monitor_epic_auth
        (fun j => if j = 1 then PollResp.resp 200 (some ("AT", "AID")) else PollResp.resp 400 none)
        (.ok (200, some "XC")) (.ok (200, ⟨some "dn", none, none⟩)) "s1" "ip" 5 20 0 [] 3
      = ⟨[("s1", ⟨"AT", "XC", ⟨some "dn", none, none⟩, "ip", 10, 10, 0⟩)],
         [.insertSession "s1" ⟨"AT", "XC", ⟨some "dn", none, none⟩, "ip", 10, 10, 0⟩,
          .loginNotif "s1" "XC", .spawnRefresh "s1"],
         .succeeded "s1"⟩ :=
  ⟨⟨rfl, by decide, by decide, by decide⟩,
   monitor_single_grant_exactly_one_insert_notify_spawn
     (fun j => if j = 1 then PollResp.resp 200 (some ("AT", "AID")) else PollResp.resp 400 none)
     "s1" "ip" "AT" "AID" "XC" 200 200 ⟨some "dn", none, none⟩ 5 20 0 [] 3 1
     (by decide) (by decide) (by decide) (by decide)⟩

/-- C5 (amended): once the token grant is reached, the Poller stops in the
`failed` state with no registry insertion, no notification, and no refresh
task whenever the exchange-code call raises, or its parsed body has no
`code` key (the `KeyError` at line 177 aborts before the insertion), or
the account-info call raises.  A non-success account-info HTTP status
whose body still parses as JSON does not abort the flow — the source never
inspects `r3.status` — see the counterexample. -/
theorem monitor_failure_paths_no_session
    (poll : Nat → PollResp) (sid userIp atok aid : String)
    (exch : CallResult (Nat × Option String)) (acct : CallResult (Nat × AccountInfo))
    (interval expires_in t0 : Nat) (reg : Registry) (fuel k : Nat)
    (hcont : ∀ j, j < k → pollContinue (poll j) = true)
    (htok : poll k = .resp 200 (some (atok, aid)))
    (htime : k * interval < expires_in)
    (hfuel : k < fuel)
    (hfail : exch = .exn ∨ (∃ st, exch = .ok (st, none)) ∨ acct = .exn) :
    monitor_epic_auth poll exch acct sid userIp interval expires_in t0 reg fuel
      = ⟨reg, [], .failed⟩ := by
  unfold monitor_epic_auth
  rw [monitorAux_reach poll exch acct sid userIp interval (t0 + expires_in) reg atok aid k 0 t0 fuel
        (fun j hj => by simpa using hcont j hj)
        (by simpa using htok)
        (Nat.add_lt_add_left htime t0)
        hfuel]
  rcases hfail with rfl | ⟨st, rfl⟩ | rfl
  · rfl
  · rfl
  · cases exch with
    | exn => rfl
    | ok a =>
      obtain ⟨st, c⟩ := a
      cases c with
      | none => rfl
      | some c => rfl

/-- Witness for C5's amended theorem: the exchange-code call raises a
transport failure right after the token grant; the Poller ends `failed`
with no effects. -/
theorem monitor_failure_paths_no_session_witness :
    ((fun _ : Nat => PollResp.resp 200 (some ("AT", "AID"))) 0
        = PollResp.resp 200 (some ("AT", "AID")) ∧
      0 * 5 < 10 ∧ 0 < 2) ∧
    monitor_epic_auth (fun _ => PollResp.resp 200 (some ("AT", "AID")))
        CallResult.exn (.ok (200, ⟨none, none, none⟩)) "s1" "ip" 5 10 0 [] 2
      = ⟨[], [], .failed⟩ :=
  ⟨⟨rfl, by decide, by decide⟩,
   monitor_failure_paths_no_session (fun _ => PollResp.resp 200 (some ("AT", "AID")))
     "s1" "ip" "AT" "AID" CallResult.exn (.ok (200, ⟨none, none, none⟩)) 5 10 0 [] 2 0
     (by decide) (by decide) (by decide) (by decide) (Or.inl rfl)⟩

/-- C5 counterexample: the account-info fetch fails with HTTP 404 (a
provider error), yet `monitor_epic_auth` never checks `r3.status` — the
error body parses as JSON and the run still creates the session, emits the
success notification, and spawns the refresh task, contradicting the
claim's "no session created" for a failing account-info fetch. -/
theorem monitor_account_error_still_creates_session :
    (monitor_epic_auth (fun _ => PollResp.resp 200 (some ("AT", "AID")))
        (.ok (200, some "XC")) (.ok (404, ⟨none, none, none⟩)) "s1" "ip" 2 10 0 [] 4).outcome
      = .succeeded "s1" ∧
    lookup (monitor_epic_auth (fun _ => PollResp.resp 200 (some ("AT", "AID")))
        (.ok (200, some "XC")) (.ok (404, ⟨none, none, none⟩)) "s1" "ip" 2 10 0 [] 4).reg "s1"
      = some ⟨"AT", "XC", ⟨none, none, none⟩, "ip", 2, 2, 0⟩ ∧
    (monitor_epic_auth (fun _ => PollResp.resp 200 (some ("AT", "AID")))
        (.ok (200, some "XC")) (.ok (404, ⟨none, none, none⟩)) "s1" "ip" 2 10 0 [] 4).events
      = [.insertSession "s1" ⟨"AT", "XC", ⟨none, none, none⟩, "ip", 2, 2, 0⟩,
         .loginNotif "s1" "XC", .spawnRefresh "s1"] := by
  decide

/-- C6 (amended): a Poller with `interval > 0` whose poll iterations all
let the loop continue (never a token, never a raised transport failure)
terminates through the deadline test — the `expired` outcome — at a time
strictly before `t0 + expires_in + interval`, with no notifications and no
session; the fuel premise says the fuel bound covers the deadline window.
A poll iteration that raises instead ends the run early in the `failed`
state (see the counterexample), still with no events and no session. -/
theorem monitor_never_token_expires (poll : Nat → PollResp)
    (exch : CallResult (Nat × Option String)) (acct : CallResult (Nat × AccountInfo))
    (sid userIp : String) (interval expires_in t0 : Nat) (reg : Registry) (fuel : Nat)
    (hI : 0 < interval)
    (hpoll : ∀ j, pollContinue (poll j) = true)
    (hfuel : expires_in ≤ fuel * interval) :
    (monitor_epic_auth poll exch acct sid userIp interval expires_in t0 reg fuel).events = [] ∧
    (monitor_epic_auth poll exch acct sid userIp interval expires_in t0 reg fuel).reg = reg ∧
    ∃ endT, (monitor_epic_auth poll exch acct sid userIp interval expires_in t0 reg fuel).outcome
        = .expired endT ∧ endT < t0 + expires_in + interval := by
  obtain ⟨endT, heq, hlt⟩ := monitorAux_continue_expires poll exch acct sid userIp interval
    (t0 + expires_in) reg hpoll fuel 0 t0
    (by have := Nat.add_le_add_left hfuel t0; omega)
    (by omega)
  unfold monitor_epic_auth
  rw [heq]
  exact ⟨rfl, rfl, endT, rfl, by omega⟩

/-- Witness for C6's amended theorem: `interval = 5`, `expires_in = 12`,
never a token: the run expires with no events. -/
theorem monitor_never_token_expires_witness :
    (0 < 5 ∧ 12 ≤ 3 * 5) ∧
    ((monitor_epic_auth (fun _ => PollResp.resp 400 none) (.ok (200, some "XC"))
        (.ok (200, ⟨none, none, none⟩)) "s1" "ip" 5 12 0 [] 3).events = [] ∧
      (monitor_epic_auth (fun _ => PollResp.resp 400 none) (.ok (200, some "XC"))
        (.ok (200, ⟨none, none, none⟩)) "s1" "ip" 5 12 0 [] 3).reg = [] ∧
      (monitor_epic_auth (fun _ => PollResp.resp 400 none) (.ok (200, some "XC"))
        (.ok (200, ⟨none, none, none⟩)) "s1" "ip" 5 12 0 [] 3).outcome = .expired 15 ∧
      15 < 0 + 12 + 5) :=
  ⟨⟨by decide, by decide⟩,
   (monitor_never_token_expires (fun _ => PollResp.resp 400 none) (.ok (200, some "XC"))
      (.ok (200, ⟨none, none, none⟩)) "s1" "ip" 5 12 0 [] 3
      (by decide) (fun _ => rfl) (by decide)).1,
   (monitor_never_token_expires (fun _ => PollResp.resp 400 none) (.ok (200, some "XC"))
      (.ok (200, ⟨none, none, none⟩)) "s1" "ip" 5 12 0 [] 3
      (by decide) (fun _ => rfl) (by decide)).2.1,
   by decide, by decide⟩

/-- C6 counterexample: a Poller whose first poll request raises a
transport failure also "never receives an access token", but it terminates
in the `failed` state (the `except` at line 181), not the Expired state
the claim requires — though still with zero notifications and no session. -/
theorem monitor_transport_failure_not_expired :
    (monitor_epic_auth (fun _ => PollResp.exn) (.ok (200, some "XC"))
        (.ok (200, ⟨none, none, none⟩)) "s1" "ip" 5 10 0 [] 9).outcome = .failed ∧
    (monitor_epic_auth (fun _ => PollResp.exn) (.ok (200, some "XC"))
        (.ok (200, ⟨none, none, none⟩)) "s1" "ip" 5 10 0 [] 9).events = [] := by
  decide

/-- C8 (amended): the Poller's insertion is a plain dict store with no
presence check.  When the generated 8-character id is not already a key of
the registry, the insertion appends a fresh entry and leaves every other
entry unchanged; when the id collides with a live session, that entry is
silently overwritten — the id is reused — so uniqueness rests solely on
the truncated-UUID generator never repeating a live id (see the
counterexample). -/
theorem monitor_fresh_session_id_appends
    (poll : Nat → PollResp) (sid userIp atok aid code : String)
    (est ast : Nat) (info : AccountInfo)
    (interval expires_in t0 : Nat) (reg : Registry) (fuel k : Nat)
    (hcont : ∀ j, j < k → pollContinue (poll j) = true)
    (htok : poll k = .resp 200 (some (atok, aid)))
    (htime : k * interval < expires_in)
    (hfuel : k < fuel)
    (hfresh : lookup reg sid = none) :
    (monitor_epic_auth poll (.ok (est, some code)) (.ok (ast, info)) sid userIp
        interval expires_in t0 reg fuel).reg
      = reg ++ [(sid, ⟨atok, code, info, userIp, t0 + k * interval + interval,
          t0 + k * interval + interval, 0⟩)] := by
  unfold monitor_epic_auth
  rw [monitorAux_reach poll (.ok (est, some code)) (.ok (ast, info)) sid userIp interval
        (t0 + expires_in) reg atok aid k 0 t0 fuel
        (fun j hj => by simpa using hcont j hj)
        (by simpa using htok)
        (Nat.add_lt_add_left htime t0)
        hfuel]
  exact dictSet_absent reg sid _ hfresh

/-- Witness for C8's amended theorem: inserting into a registry that holds
one other session appends the new entry and keeps the old one. -/
theorem monitor_fresh_session_id_appends_witness :
    (0 * 1 < 10 ∧ 0 < 2 ∧
      lookup [("other", ⟨"B", "BX", ⟨none, none, none⟩, "ip2", 0, 0, 1⟩)] "s1" = none) ∧
    (monitor_epic_auth (fun _ => PollResp.resp 200 (some ("AT", "AID")))
        (.ok (200, some "XC")) (.ok (200, ⟨none, none, none⟩)) "s1" "ip" 1 10 0
        [("other", ⟨"B", "BX", ⟨none, none, none⟩, "ip2", 0, 0, 1⟩)] 2).reg
      = [("other", ⟨"B", "BX", ⟨none, none, none⟩, "ip2", 0, 0, 1⟩),
         ("s1", ⟨"AT", "XC", ⟨none, none, none⟩, "ip", 1, 1, 0⟩)] :=
  ⟨⟨by decide, by decide, by decide⟩,
   monitor_fresh_session_id_appends (fun _ => PollResp.resp 200 (some ("AT", "AID")))
     "s1" "ip" "AT" "AID" "XC" 200 200 ⟨none, none, none⟩ 1 10 0
     [("other", ⟨"B", "BX", ⟨none, none, none⟩, "ip2", 0, 0, 1⟩)] 2 0
     (by decide) (by decide) (by decide) (by decide) (by decide)⟩

/-- C8 counterexample: the registry already holds a live session under id
"ab12cd34" when the Poller generates that same id: the insertion silently
overwrites the old entry — the freshly generated id *was* already present
at insertion time, and the id is reused for a second, distinct session —
refuting the claim. -/
theorem monitor_reused_session_id_overwrites :
    lookup [("ab12cd34", ⟨"OLD", "OX", ⟨none, none, none⟩, "1.1.1.1", 0, 0, 3⟩)] "ab12cd34"
      = some ⟨"OLD", "OX", ⟨none, none, none⟩, "1.1.1.1", 0, 0, 3⟩ ∧
    (monitor_epic_auth (fun _ => PollResp.resp 200 (some ("AT", "AID")))
        (.ok (200, some "XC")) (.ok (200, ⟨none, none, none⟩)) "ab12cd34" "ip" 1 10 0
        [("ab12cd34", ⟨"OLD", "OX", ⟨none, none, none⟩, "1.1.1.1", 0, 0, 3⟩)] 5).outcome
      = .succeeded "ab12cd34" ∧
    (monitor_epic_auth (fun _ => PollResp.resp 200 (some ("AT", "AID")))
        (.ok (200, some "XC")) (.ok (200, ⟨none, none, none⟩)) "ab12cd34" "ip" 1 10 0
        [("ab12cd34", ⟨"OLD", "OX", ⟨none, none, none⟩, "1.1.1.1", 0, 0, 3⟩)] 5).reg
      = [("ab12cd34", ⟨"AT", "XC", ⟨none, none, none⟩, "ip", 1, 1, 0⟩)] ∧
    (⟨"AT", "XC", ⟨none, none, none⟩, "ip", 1, 1, 0⟩ : Session)
      ≠ ⟨"OLD", "OX", ⟨none, none, none⟩, "1.1.1.1", 0, 0, 3⟩ := by
  decide

-- ---------------------------------------------------------------------
-- Claim theorems about the Verification Dispatcher
-- ---------------------------------------------------------------------

/-- C7: a request whose path/identifier does not pass the source's check
(path not under `/verify/`, no configured identifier, empty identifier, or
last path segment differing from it) yields not-found with no side
effects: the usage counter is unchanged and no Poller is spawned.  A
request that passes the check increments the counter by exactly 1; on
Initiator success the attempt's `activation_url` is returned (redirect)
and a Poller is spawned, on Initiator failure a service-failure result is
returned, no Poller is spawned, and the counter increment stands. -/
theorem do_GET_dispatch_correct (linkId : Option String) (path : String) (uses : Nat)
    (initiator : CallResult AuthAttempt) :
    (acceptsRequest linkId path = false →
      do_GET linkId path uses initiator = ⟨.notFound, uses, false⟩) ∧
    (acceptsRequest linkId path = true →
      (do_GET linkId path uses initiator).uses = uses + 1 ∧
      (initiator = .exn →
        do_GET linkId path uses initiator = ⟨.serverError, uses + 1, false⟩) ∧
      ∀ a, initiator = .ok a →
        do_GET linkId path uses initiator = ⟨.redirect a.activation_url, uses + 1, true⟩) := by
  by_cases hsw : pyStartsWith path "/verify/" = true
  · cases linkId with
    | none => simp [do_GET, acceptsRequest, hsw]
    | some lid =>
      by_cases hl : lid = ""
      · simp [do_GET, acceptsRequest, hsw, hl]
      · by_cases hseg : lastSegment path = lid
        · cases initiator with
          | exn => simp [do_GET, acceptsRequest, hsw, hl, hseg]
          | ok a => simp [do_GET, acceptsRequest, hsw, hl, hseg]
        · simp [do_GET, acceptsRequest, hsw, hl, hseg]
  · simp [do_GET, acceptsRequest, hsw]

/-- Witness for C7: the exact configured identifier on the canonical path:
accepted, counter 3 → 4, redirect to the Initiator's activation URL. -/
theorem do_GET_dispatch_correct_witness :
    acceptsRequest (some "tok") "/verify/tok" = true ∧
    (do_GET (some "tok") "/verify/tok" 3
      (.ok ⟨"https://a", "dc", 5, 600⟩)).uses = 3 + 1 ∧
    do_GET (some "tok") "/verify/tok" 3 (.ok ⟨"https://a", "dc", 5, 600⟩)
      = ⟨.redirect "https://a", 3 + 1, true⟩ :=
  ⟨by decide,
   ((do_GET_dispatch_correct (some "tok") "/verify/tok" 3
       (.ok ⟨"https://a", "dc", 5, 600⟩)).2 (by decide)).1,
   ((do_GET_dispatch_correct (some "tok") "/verify/tok" 3
       (.ok ⟨"https://a", "dc", 5, 600⟩)).2 (by decide)).2.2
     ⟨"https://a", "dc", 5, 600⟩ rfl⟩

/-- C10: the dispatcher's identifier check compares only the final
'/'-separated segment of the request path against the configured
identifier: every path starting with "/verify/" whose last segment equals
the (truthy) identifier is accepted and triggers the full verification
flow — including paths with extra intermediate segments such as
"/verify/anything/tok" (see the witness), not only "/verify/tok". -/
theorem do_GET_accepts_any_path_with_matching_last_segment
    (lid path : String) (uses : Nat) (a : AuthAttempt)
    (hlid : lid ≠ "")
    (hsw : pyStartsWith path "/verify/" = true)
    (hseg : lastSegment path = lid) :
    do_GET (some lid) path uses (.ok a)
      = ⟨.redirect a.activation_url, uses + 1, true⟩ := by
  unfold do_GET
  rw [if_pos hsw]
  simp only []
  rw [if_neg hlid, if_neg (by simp [hseg])]

/-- Witness for C10: "/verify/anything/tok" with configured identifier
"tok" — an extra intermediate segment — is accepted and redirects. -/
theorem do_GET_accepts_any_path_with_matching_last_segment_witness :
    (("tok" : String) ≠ "" ∧ pyStartsWith "/verify/anything/tok" "/verify/" = true ∧
      lastSegment "/verify/anything/tok" = "tok") ∧
    do_GET (some "tok") "/verify/anything/tok" 0 (.ok ⟨"https://b", "dc", 5, 600⟩)
      = ⟨.redirect "https://b", 0 + 1, true⟩ :=
  ⟨⟨by decide, by decide, by decide⟩,
   do_GET_accepts_any_path_with_matching_last_segment "tok" "/verify/anything/tok" 0
     ⟨"https://b", "dc", 5, 600⟩ (by decide) (by decide) (by decide)⟩

end EpicAuth
